import Mathlib

/-!
Shallow embedding of the pose-generation workflow engine of the
rex-pose-creator repository (src/App.tsx and src/services/geminiService.ts).

The React component state is modelled as the record `AppState`; each event
handler of the component becomes a pure state-transition function with the
same name.  The external describe / render network capabilities are
modelled as parameters: the render capability is a function from the call
index to the outcome of that call, and the describe capability appears as
the request value that would be submitted.  Asynchronous describe calls in
flight are modelled explicitly by the `Sys` record, which pairs the
component state with the list of pending describe requests, so that
interleavings of user edits and network completions can be examined.
-/

/-- Substring machinery used to embed JavaScript `String.prototype.includes`.
`isPre needle hay` holds when `needle` is a prefix of `hay`. -/
def isPre : List Char → List Char → Bool
  | [], _ => true
  | _ :: _, [] => false
  | a :: as, b :: bs => if a = b then isPre as bs else false

/-- `occursIn needle hay` holds when `needle` occurs contiguously in `hay`. -/
def occursIn (needle : List Char) : List Char → Bool
  | [] => needle.isEmpty
  | c :: t => isPre needle (c :: t) || occursIn needle t

/-- Embeds `hay.includes(needle)` from JavaScript. -/
def occursStr (hay needle : String) : Bool :=
  occursIn needle.data hay.data

/-- Drop whitespace from both ends of a character list. -/
def trimChars (l : List Char) : List Char :=
  ((l.dropWhile Char.isWhitespace).reverse.dropWhile Char.isWhitespace).reverse

/-- Embeds JavaScript `s.trim()`: strip leading and trailing whitespace. -/
def jsTrim (s : String) : String :=
  String.mk (trimChars s.data)

/-- `{ data, mimeType }` payload shape shared by the app and the service. -/
structure ImagePayload where
  data : String
  mimeType : String
deriving DecidableEq

/-- `StoredBaseImage` from src/App.tsx. -/
structure StoredBaseImage where
  data : String
  mimeType : String
deriving DecidableEq

/-- A browser `File`, reduced to what the code observes of it: its base64
content (the value `fileToBase64` resolves to) and its mime type. -/
structure FileData where
  content : String
  fileType : String
deriving DecidableEq

/-- Models the opaque browser handle `URL.createObjectURL(file)`; the app
never inspects the handle value, only stores and releases it. -/
def createObjectURL (f : FileData) : String :=
  "blob:" ++ f.content

/-- `ImageFile` from src/App.tsx: the file plus its preview handle. -/
structure ImageFile where
  file : FileData
  preview : String
deriving DecidableEq

/-- The pose-source mode radio selection, `'text' | 'image'`. -/
inductive Mode where
  | text
  | image
deriving DecidableEq

/-- The full component state of `App` in src/App.tsx (one field per
`useState` / `useLocalStorage` hook). -/
structure AppState where
  baseImage : Option StoredBaseImage
  poseImage : Option ImageFile
  prompt : String
  poseSourceMode : Option Mode
  poseDescription : String
  isPreviewLoading : Bool
  showDescriptionEditor : Bool
  generatedImage : Option String
  isLoading : Bool
  error : Option String
deriving DecidableEq

/-- A describe request as submitted by the pose-description effect: either
the image payload, or the raw (un-trimmed) debounced prompt text. -/
inductive DescribeCall where
  | imageCall (p : ImagePayload)
  | textCall (t : String)
deriving DecidableEq

/-- The body of the pose-description `useEffect` (src/App.tsx lines 40-83),
up to the point where a describe call is issued.  Takes the debounced
prompt and debounced pose image the effect closes over, returns the state
after the synchronous prologue of the effect together with the describe
call it starts, if any.  The text branch fires only when the trimmed
debounced prompt is truthy (non-empty); the image branch only when a
debounced pose image is present; otherwise the editor is hidden and the
description cleared, and no call is made. -/
def effectStep (debouncedPrompt : String) (debouncedPoseImage : Option ImageFile)
    (s : AppState) : AppState × Option DescribeCall :=
  match s.poseSourceMode with
  | none => (s, none)
  | some Mode.text =>
    if jsTrim debouncedPrompt ≠ "" then
      ({ s with isPreviewLoading := true, error := none },
        some (DescribeCall.textCall debouncedPrompt))
    else
      ({ s with showDescriptionEditor := false, poseDescription := "" }, none)
  | some Mode.image =>
    match debouncedPoseImage with
    | some f =>
      ({ s with isPreviewLoading := true, error := none },
        some (DescribeCall.imageCall { data := f.file.content, mimeType := f.file.fileType }))
    | none =>
      ({ s with showDescriptionEditor := false, poseDescription := "" }, none)

/-- The success continuation of a describe call in the effect
(src/App.tsx lines 49-50 and the `finally` at 56/74): store the resolved
description, reveal the editor, stop the preview spinner.  The code runs
this continuation unconditionally when the promise resolves; it does not
compare the call's triggering source against the current state. -/
def resolveDescribeOk (result : String) (s : AppState) : AppState :=
  { s with poseDescription := result, showDescriptionEditor := true,
           isPreviewLoading := false }

/-- `handleDeleteBaseImage` (src/App.tsx lines 102-112), confirmed branch.
It resets `baseImage`, `poseImage`, `prompt`, `generatedImage`, `error`,
`poseSourceMode` and `showDescriptionEditor`; it does not touch
`poseDescription`. -/
def handleDeleteBaseImage (s : AppState) : AppState :=
  { s with baseImage := none, poseImage := none, prompt := "",
           generatedImage := none, error := none, poseSourceMode := none,
           showDescriptionEditor := false }

/-- `handlePoseImageUpload` (src/App.tsx lines 114-120). -/
def handlePoseImageUpload (f : FileData) (s : AppState) : AppState :=
  { s with poseImage := some { file := f, preview := createObjectURL f },
           prompt := "" }

/-- `handleTryNewPose` (src/App.tsx lines 175-183). -/
def handleTryNewPose (s : AppState) : AppState :=
  { s with generatedImage := none, poseImage := none, prompt := "",
           error := none, poseSourceMode := none,
           showDescriptionEditor := false, poseDescription := "" }

/-- `handlePoseSourceChange` (src/App.tsx lines 206-213). -/
def handlePoseSourceChange (m : Mode) (s : AppState) : AppState :=
  { s with poseSourceMode := some m, error := none, poseImage := none,
           prompt := "", showDescriptionEditor := false, poseDescription := "" }

/-- The `onChange` of the prompt textarea: `setPrompt(e.target.value)`. -/
def setPromptAction (t : String) (s : AppState) : AppState :=
  { s with prompt := t }

/-- Outcome of one invocation of the external render capability
(`generatePose`): the resolved base64 image, or the thrown error message. -/
inductive RenderOutcome where
  | ok (imageBase64 : String)
  | err (message : String)
deriving DecidableEq

/-- The error-message signal and user-facing message constants of the retry
loop in `handleGenerate` (src/App.tsx lines 156-165). -/
def authSignal : String := "Requested entity was not found."

def poseSignal : String := "POSE_DETECTION_FAILED"

def multiSignal : String := "MULTIPLE_PEOPLE_DETECTED"

def authInvalidMsg : String :=
  "Your API key seems to be invalid. Please double-check the key in services/geminiService.ts."

def poseDetectionMsg : String :=
  "Pose not detected clearly — try a clearer or single-person image."

def multiplePeopleMsg : String :=
  "Multiple people detected — please crop to one person for best accuracy."

/-- The fatal-classification chain of the catch block (src/App.tsx lines
156-165): the `if / else if / else if` cascade over
`errorMessage.includes(...)`, returning the user-facing message of the
first matching fatal signal, or `none` when no fatal signal matches. -/
def fatalMessageOf (msg : String) : Option String :=
  if occursStr msg authSignal then some authInvalidMsg
  else if occursStr msg poseSignal then some poseDetectionMsg
  else if occursStr msg multiSignal then some multiplePeopleMsg
  else none

/-- The transient error message of src/App.tsx line 167, for the attempt
with zero-based index `i`: it embeds the one-based attempt index `i+1`. -/
def transientMessage (i : Nat) (msg : String) : String :=
  "Failed to generate image (attempt " ++ (toString (i + 1) ++ ("). " ++ msg))

/-- Accumulated state of the retry loop in `handleGenerate`: number of
render calls made so far, the `success` flag, whether a fatal branch
executed `break`, and the values the loop has passed to
`setGeneratedImage` / `setError`. -/
structure LoopState where
  calls : Nat
  success : Bool
  fatal : Bool
  generatedImage : Option String
  error : Option String
deriving DecidableEq

/-- The `try`/`catch` body of one iteration of the retry loop
(src/App.tsx lines 139-168), for the iteration with index `i`. -/
def runAttempt (render : Nat → RenderOutcome) (i : Nat) (st : LoopState) : LoopState :=
  match render i with
  | RenderOutcome.ok img =>
    { st with calls := st.calls + 1, success := true,
              generatedImage := some ("data:image/png;base64," ++ img) }
  | RenderOutcome.err msg =>
    match fatalMessageOf msg with
    | some e => { st with calls := st.calls + 1, error := some e, fatal := true }
    | none => { st with calls := st.calls + 1, error := some (transientMessage i msg) }

/-- One guarded iteration of `for (let i = 0; i < 3 && !success; i++)`:
the body runs unless `success` already holds or a fatal branch broke out. -/
def loopStep (render : Nat → RenderOutcome) (i : Nat) (st : LoopState) : LoopState :=
  if st.success || st.fatal then st else runAttempt render i st

/-- The initial loop state: `success = false`, no calls yet, and the
values `setGeneratedImage(null)` / `setError(null)` installed just before
the loop (src/App.tsx lines 126-127). -/
def initLoopState : LoopState :=
  { calls := 0, success := false, fatal := false, generatedImage := none, error := none }

/-- The whole bounded retry loop of `handleGenerate` (src/App.tsx lines
136-169): iterations `i = 0, 1, 2`, each guarded by `i < 3 && !success`
and by the `break` of the fatal branches. -/
def genLoop (render : Nat → RenderOutcome) : LoopState :=
  loopStep render 2 (loopStep render 1 (loopStep render 0 initLoopState))

/-- `handleGenerate` (src/App.tsx lines 122-173), run to completion:
returns the final component state together with the number of render
calls consumed.  The guard `if (!baseImage || !poseDescription) return;`
is a no-op exactly when `baseImage` is null or `poseDescription` is the
empty string (the only falsy string). -/
def handleGenerate (render : Nat → RenderOutcome) (s : AppState) : AppState × Nat :=
  if s.baseImage = none ∨ s.poseDescription = "" then (s, 0)
  else
    let r := genLoop render
    ({ s with isLoading := false, generatedImage := r.generatedImage,
              error := r.error }, r.calls)

/-- Component state plus the describe calls currently in flight, oldest
first, each recorded as the request (hence the source) that triggered it. -/
structure Sys where
  app : AppState
  pendingKeys : List DescribeCall
deriving DecidableEq

/-- Lift a synchronous handler to the system. -/
def userStep (f : AppState → AppState) (σ : Sys) : Sys :=
  { σ with app := f σ.app }

/-- The effect firing after debounce quiescence, so the debounced values
coincide with the current ones: run `effectStep` and record the describe
call it starts, if any, as pending. -/
def fireEffect (σ : Sys) : Sys :=
  let r := effectStep σ.app.prompt σ.app.poseImage σ.app
  { app := r.1, pendingKeys := σ.pendingKeys ++ r.2.toList }

/-- Resolution of the pending describe call at position `i` with `result`:
the code's continuation `resolveDescribeOk` runs unconditionally, with no
comparison of the call's key against the current source. -/
def resolveAt (i : Nat) (result : String) (σ : Sys) : Sys :=
  if i < σ.pendingKeys.length then
    { app := resolveDescribeOk result σ.app,
      pendingKeys := σ.pendingKeys.eraseIdx i }
  else σ

/-- The request a call to `generatePoseDescription`
(src/services/geminiService.ts lines 22-48) submits to the model. -/
inductive DescribeRequest where
  | imageReq (p : ImagePayload)
  | textReq (t : String)
deriving DecidableEq

/-- The error thrown by `generatePoseDescription` when neither branch of
its `if (image) ... else if (text) ...` cascade is taken. -/
def describeArgError : String :=
  "Either an image or text must be provided for description."

/-- `generatePoseDescription` (src/services/geminiService.ts lines 22-48),
up to the network call: which request is submitted, or which error is
thrown.  `if (image)` is truthy for any non-null payload object;
`else if (text)` is truthy only for a non-null, non-empty string. -/
def generatePoseDescription (image : Option ImagePayload) (text : Option String) :
    Except String DescribeRequest :=
  match image with
  | some img => Except.ok (DescribeRequest.imageReq img)
  | none =>
    match text with
    | some t =>
      if t ≠ "" then Except.ok (DescribeRequest.textReq t)
      else Except.error describeArgError
    | none => Except.error describeArgError

/-- The workflow phases of the specification, section 4.1. -/
inductive Phase where
  | noIdentity
  | awaitingPoseSourceChoice
  | normalizingDescription
  | descriptionReady
  | generating
  | result
deriving DecidableEq

/-- Abstraction map from component state to the specification's workflow
phase, following the rendering conditions of src/App.tsx: no identity
without a base image; generating while `isLoading`; the result section
shows when a generated image is present and not loading; normalizing while
the preview loads; description ready while the editor shows; otherwise
awaiting the pose-source choice. -/
def phaseOf (s : AppState) : Phase :=
  if s.baseImage = none then Phase.noIdentity
  else if s.isLoading then Phase.generating
  else if s.generatedImage ≠ none then Phase.result
  else if s.isPreviewLoading then Phase.normalizingDescription
  else if s.showDescriptionEditor then Phase.descriptionReady
  else Phase.awaitingPoseSourceChoice

/-! ## Helper lemmas -/

theorem isPre_append_self (l r : List Char) : isPre l (l ++ r) = true := by
  induction l with
  | nil => rfl
  | cons a as ih => simp [isPre, ih]

theorem occursIn_nil_needle (hay : List Char) : occursIn [] hay = true := by
  cases hay <;> simp [occursIn, isPre, List.isEmpty]

theorem occursIn_append_mid (a b c : List Char) : occursIn b (a ++ (b ++ c)) = true := by
  induction a with
  | nil =>
    cases b with
    | nil => simpa using occursIn_nil_needle c
    | cons x xs =>
      have h := isPre_append_self (x :: xs) c
      rw [List.cons_append] at h
      simp [occursIn, h]
  | cons x xs ih => simp [occursIn, ih]

theorem occursStr_append_mid (p q r : String) : occursStr (p ++ (q ++ r)) q = true := by
  show occursIn q.data (p ++ (q ++ r)).data = true
  rw [String.data_append, String.data_append]
  exact occursIn_append_mid p.data q.data r.data

theorem transientMessage_contains_index (i : Nat) (msg : String) :
    occursStr (transientMessage i msg) (toString (i + 1)) = true :=
  occursStr_append_mid _ _ _

theorem runAttempt_calls (render : Nat → RenderOutcome) (i : Nat) (st : LoopState) :
    (runAttempt render i st).calls = st.calls + 1 := by
  rcases hr : render i with img | m
  · simp [runAttempt, hr]
  · rcases hf : fatalMessageOf m with _ | e <;> simp [runAttempt, hr, hf]

theorem loopStep_calls_le (render : Nat → RenderOutcome) (i : Nat) (st : LoopState) :
    (loopStep render i st).calls ≤ st.calls + 1 := by
  unfold loopStep
  split
  · exact Nat.le_succ _
  · exact Nat.le_of_eq (runAttempt_calls render i st)

theorem genLoop_calls_le (render : Nat → RenderOutcome) : (genLoop render).calls ≤ 3 := by
  have h0 := loopStep_calls_le render 0 initLoopState
  have h1 := loopStep_calls_le render 1 (loopStep render 0 initLoopState)
  have h2 := loopStep_calls_le render 2 (loopStep render 1 (loopStep render 0 initLoopState))
  have hi : initLoopState.calls = 0 := rfl
  unfold genLoop
  omega

/-! ## Concrete fixtures -/

def baseFix : StoredBaseImage := { data := "BASE64DATA", mimeType := "image/png" }

def deleteWithDescriptionState : AppState :=
  { baseImage := some baseFix, poseImage := none, prompt := "",
    poseSourceMode := some Mode.text,
    poseDescription := "A character is doing push-ups, seen from the side.",
    isPreviewLoading := false, showDescriptionEditor := true,
    generatedImage := some "data:image/png;base64,OUT", isLoading := false,
    error := some "previous error" }

def resultPhaseState : AppState :=
  { baseImage := some baseFix, poseImage := none, prompt := "",
    poseSourceMode := some Mode.text, poseDescription := "desc",
    isPreviewLoading := false, showDescriptionEditor := true,
    generatedImage := some "data:image/png;base64,OUT", isLoading := false,
    error := none }

/-! ## Claim theorems -/

/-- C2: evaluating `handleDeleteBaseImage` at a state holding a non-empty
pose description.  Deletion clears the base image, pose source, prompt,
generation result and error, but leaves `poseDescription` untouched and
non-empty, so the claimed atomic clear of all four downstream entities
fails on the description. -/
theorem delete_base_image_leaves_description :
    (handleDeleteBaseImage deleteWithDescriptionState).poseDescription =
      "A character is doing push-ups, seen from the side." ∧
    (handleDeleteBaseImage deleteWithDescriptionState).poseDescription ≠ "" ∧
    (handleDeleteBaseImage deleteWithDescriptionState).baseImage = none ∧
    (handleDeleteBaseImage deleteWithDescriptionState).poseImage = none ∧
    (handleDeleteBaseImage deleteWithDescriptionState).prompt = "" ∧
    (handleDeleteBaseImage deleteWithDescriptionState).generatedImage = none ∧
    (handleDeleteBaseImage deleteWithDescriptionState).error = none := by
  exact ⟨rfl, by decide, rfl, rfl, rfl, rfl, rfl⟩

/-- C8: "try new pose" is idempotent — applying it twice equals applying
it once — and the resulting state has the pose source (mode, image and
prompt), pose description, generation result and error all absent; when a
base identity is present and no async operation is marked in flight, the
resulting phase is `AwaitingPoseSourceChoice`. -/
theorem try_new_pose_idempotent (s : AppState) :
    handleTryNewPose (handleTryNewPose s) = handleTryNewPose s ∧
    (handleTryNewPose s).poseSourceMode = none ∧
    (handleTryNewPose s).poseImage = none ∧
    (handleTryNewPose s).prompt = "" ∧
    (handleTryNewPose s).poseDescription = "" ∧
    (handleTryNewPose s).generatedImage = none ∧
    (handleTryNewPose s).error = none ∧
    (s.baseImage ≠ none → s.isLoading = false → s.isPreviewLoading = false →
      phaseOf (handleTryNewPose s) = Phase.awaitingPoseSourceChoice) := by
  refine ⟨rfl, rfl, rfl, rfl, rfl, rfl, rfl, ?_⟩
  intro hb hl hp
  simp [phaseOf, handleTryNewPose, hb, hl, hp]

/-- Witness for C8 at a concrete result-phase state. -/
theorem try_new_pose_idempotent_witness :
    handleTryNewPose (handleTryNewPose resultPhaseState) = handleTryNewPose resultPhaseState ∧
    phaseOf (handleTryNewPose resultPhaseState) = Phase.awaitingPoseSourceChoice := by
  refine ⟨(try_new_pose_idempotent resultPhaseState).1, ?_⟩
  exact (try_new_pose_idempotent resultPhaseState).2.2.2.2.2.2.2 (by decide) rfl rfl

/-- C9: uploading a pose reference image stores the file with its preview
handle and clears the text prompt to the empty string, so an upload never
leaves both the text and image source contents populated. -/
theorem pose_image_upload_clears_prompt (f : FileData) (s : AppState) :
    (handlePoseImageUpload f s).prompt = "" ∧
    (handlePoseImageUpload f s).poseImage =
      some { file := f, preview := createObjectURL f } ∧
    ¬((handlePoseImageUpload f s).prompt ≠ "" ∧
      (handlePoseImageUpload f s).poseImage ≠ none) := by
  refine ⟨rfl, rfl, ?_⟩
  intro h
  exact h.1 rfl

/-- C10 counterexample: with a null image and the non-null empty string as
text, `generatePoseDescription` raises the argument error although the
text argument is not absent, refuting "raises an error only when both
image and text are absent". -/
theorem describe_error_with_empty_text :
    generatePoseDescription none (some "") = Except.error describeArgError ∧
    (some "" : Option String) ≠ none := by
  exact ⟨rfl, by decide⟩

/-- C10 amended: given any non-null image the describe operation submits
only the image (any text is ignored), and it raises the argument error
exactly when the image is absent and the text is absent or the empty
string. -/
theorem describe_image_precedence_and_error_condition
    (image : Option ImagePayload) (text : Option String) :
    (∀ img : ImagePayload,
      generatePoseDescription (some img) text = Except.ok (DescribeRequest.imageReq img)) ∧
    (generatePoseDescription image text = Except.error describeArgError ↔
      image = none ∧ (text = none ∨ text = some "")) := by
  constructor
  · intro img; rfl
  · rcases image with _ | img
    · rcases text with _ | t
      · simp [generatePoseDescription]
      · by_cases ht : t = ""
        · subst ht; simp [generatePoseDescription]
        · simp [generatePoseDescription, ht]
    · simp [generatePoseDescription]

def readyState : AppState :=
  { baseImage := some baseFix, poseImage := none, prompt := "",
    poseSourceMode := some Mode.text,
    poseDescription := "A character is doing push-ups, seen from the side.",
    isPreviewLoading := false, showDescriptionEditor := true,
    generatedImage := none, isLoading := false, error := none }

def emptyDescState : AppState :=
  { baseImage := some baseFix, poseImage := none, prompt := "",
    poseSourceMode := some Mode.text, poseDescription := "",
    isPreviewLoading := false, showDescriptionEditor := false,
    generatedImage := none, isLoading := false, error := none }

def whitespaceDescState : AppState :=
  { baseImage := some baseFix, poseImage := none, prompt := "",
    poseSourceMode := some Mode.text, poseDescription := " ",
    isPreviewLoading := false, showDescriptionEditor := true,
    generatedImage := none, isLoading := false, error := none }

def okRender : Nat → RenderOutcome := fun _ => RenderOutcome.ok "IMGOUT"

def poseFailRender : Nat → RenderOutcome := fun _ =>
  RenderOutcome.err
    "POSE_DETECTION_FAILED: The model could not detect a clear pose in the reference image."

def retryRender : Nat → RenderOutcome := fun i =>
  if i < 2 then RenderOutcome.err "network timeout" else RenderOutcome.ok "IMGOUT"

/-- C3: with a base identity present and a non-empty description, a render
capability that fails non-fatally on the first two calls and succeeds on
the third consumes exactly 3 render calls and stores the success result;
and in general every confirmed generation makes at most 3 render calls. -/
theorem transient_retry_three_attempts (render : Nat → RenderOutcome) (s : AppState)
    (m0 m1 img : String)
    (hb : s.baseImage ≠ none) (hd : s.poseDescription ≠ "")
    (h0 : render 0 = RenderOutcome.err m0) (hf0 : fatalMessageOf m0 = none)
    (h1 : render 1 = RenderOutcome.err m1) (hf1 : fatalMessageOf m1 = none)
    (h2 : render 2 = RenderOutcome.ok img) :
    (handleGenerate render s).2 = 3 ∧
    (handleGenerate render s).1.generatedImage = some ("data:image/png;base64," ++ img) ∧
    (∀ (render2 : Nat → RenderOutcome) (s2 : AppState), (handleGenerate render2 s2).2 ≤ 3) := by
  have hguard : ¬(s.baseImage = none ∨ s.poseDescription = "") := by
    rintro (h | h)
    · exact hb h
    · exact hd h
  have hloop : genLoop render =
      { calls := 3, success := true, fatal := false,
        generatedImage := some ("data:image/png;base64," ++ img),
        error := some (transientMessage 1 m1) } := by
    simp [genLoop, loopStep, runAttempt, initLoopState, h0, hf0, h1, hf1, h2]
  refine ⟨?_, ?_, ?_⟩
  · unfold handleGenerate
    rw [if_neg hguard]
    simp [hloop]
  · unfold handleGenerate
    rw [if_neg hguard]
    simp [hloop]
  · intro render2 s2
    unfold handleGenerate
    split
    · simp
    · simpa using genLoop_calls_le render2

/-- Witness for C3 on a concrete retrying render capability. -/
theorem transient_retry_three_attempts_witness :
    (handleGenerate retryRender readyState).2 = 3 ∧
    (handleGenerate retryRender readyState).1.generatedImage =
      some ("data:image/png;base64," ++ "IMGOUT") := by
  have h := transient_retry_three_attempts retryRender readyState
    "network timeout" "network timeout" "IMGOUT"
    (by decide) (by decide) (by decide) (by decide) (by decide) (by decide) (by decide)
  exact ⟨h.1, h.2.1⟩

/-- C4: with a base identity present and a non-empty description, a render
capability whose first call raises a fatally-classified error makes the
orchestrator stop after exactly 1 render call, surface the corresponding
fatal message, and store no result. -/
theorem fatal_error_single_attempt (render : Nat → RenderOutcome) (s : AppState)
    (msg e : String)
    (hb : s.baseImage ≠ none) (hd : s.poseDescription ≠ "")
    (h0 : render 0 = RenderOutcome.err msg)
    (hf : fatalMessageOf msg = some e) :
    (handleGenerate render s).2 = 1 ∧
    (handleGenerate render s).1.error = some e ∧
    (handleGenerate render s).1.generatedImage = none := by
  have hguard : ¬(s.baseImage = none ∨ s.poseDescription = "") := by
    rintro (h | h)
    · exact hb h
    · exact hd h
  have hloop : genLoop render =
      { calls := 1, success := false, fatal := true,
        generatedImage := none, error := some e } := by
    simp [genLoop, loopStep, runAttempt, initLoopState, h0, hf]
  unfold handleGenerate
  rw [if_neg hguard]
  simp [hloop]

/-- Witness for C4 on a concrete pose-detection failure. -/
theorem fatal_error_single_attempt_witness :
    (handleGenerate poseFailRender readyState).2 = 1 ∧
    (handleGenerate poseFailRender readyState).1.error = some poseDetectionMsg ∧
    (handleGenerate poseFailRender readyState).1.generatedImage = none :=
  fatal_error_single_attempt poseFailRender readyState
    "POSE_DETECTION_FAILED: The model could not detect a clear pose in the reference image."
    poseDetectionMsg (by decide) (by decide) (by decide) (by decide)

/-- C5: the render-error classification checks the auth signal, then the
pose-detection signal, then the multiple-people signal, in that order, and
the first match determines the surfaced fatal message regardless of later
signals also occurring in the message; a message matching none of the
three is classified transient, the attempt's error is the transient
message, and that message contains the one-based attempt index. -/
theorem error_classification_first_match (msg : String) (i : Nat) :
    (occursStr msg authSignal = true → fatalMessageOf msg = some authInvalidMsg) ∧
    (occursStr msg authSignal = false → occursStr msg poseSignal = true →
      fatalMessageOf msg = some poseDetectionMsg) ∧
    (occursStr msg authSignal = false → occursStr msg poseSignal = false →
      occursStr msg multiSignal = true → fatalMessageOf msg = some multiplePeopleMsg) ∧
    (occursStr msg authSignal = false → occursStr msg poseSignal = false →
      occursStr msg multiSignal = false →
      fatalMessageOf msg = none ∧
      (∀ (render : Nat → RenderOutcome) (st : LoopState),
        render i = RenderOutcome.err msg →
        (runAttempt render i st).error = some (transientMessage i msg) ∧
        (runAttempt render i st).fatal = st.fatal) ∧
      occursStr (transientMessage i msg) (toString (i + 1)) = true) := by
  refine ⟨?_, ?_, ?_, ?_⟩
  · intro h
    simp [fatalMessageOf, h]
  · intro h1 h2
    simp [fatalMessageOf, h1, h2]
  · intro h1 h2 h3
    simp [fatalMessageOf, h1, h2, h3]
  · intro h1 h2 h3
    have hf : fatalMessageOf msg = none := by simp [fatalMessageOf, h1, h2, h3]
    refine ⟨hf, ?_, transientMessage_contains_index i msg⟩
    intro render st hr
    constructor <;> simp [runAttempt, hr, hf]

/-- Witness for C5: a message carrying both the auth and the
pose-detection signal classifies as the auth failure, and a plain network
failure classifies as transient with the attempt index in its message. -/
theorem error_classification_first_match_witness :
    fatalMessageOf "Requested entity was not found. POSE_DETECTION_FAILED" =
      some authInvalidMsg ∧
    fatalMessageOf "network timeout" = none ∧
    occursStr (transientMessage 1 "network timeout") (toString (1 + 1)) = true := by
  refine ⟨?_, ?_, ?_⟩
  · exact (error_classification_first_match
      "Requested entity was not found. POSE_DETECTION_FAILED" 0).1 (by decide)
  · exact ((error_classification_first_match "network timeout" 1).2.2.2
      (by decide) (by decide) (by decide)).1
  · exact ((error_classification_first_match "network timeout" 1).2.2.2
      (by decide) (by decide) (by decide)).2.2

/-- C6 amended: the generate confirmation is a no-op — no render call, no
state change — whenever the base identity is absent or the pose
description is the empty string.  (A whitespace-only, non-empty
description is not blocked; see the counterexample.) -/
theorem generate_noop_of_empty (render : Nat → RenderOutcome) (s : AppState)
    (h : s.baseImage = none ∨ s.poseDescription = "") :
    handleGenerate render s = (s, 0) := by
  unfold handleGenerate
  rw [if_pos h]

/-- Witness for the amended C6 at a concrete empty-description state. -/
theorem generate_noop_of_empty_witness :
    handleGenerate okRender emptyDescState = (emptyDescState, 0) :=
  generate_noop_of_empty okRender emptyDescState (Or.inr rfl)

/-- C6 counterexample: with the base identity present and the
whitespace-only pose description " ", the generate confirmation is not a
no-op — one render call is made and the state changes. -/
theorem generate_not_noop_on_whitespace :
    jsTrim whitespaceDescState.poseDescription = "" ∧
    whitespaceDescState.poseDescription ≠ "" ∧
    (handleGenerate okRender whitespaceDescState).2 = 1 ∧
    (handleGenerate okRender whitespaceDescState).1 ≠ whitespaceDescState := by
  refine ⟨by decide, by decide, by decide, by decide⟩

/-- C7: when the pose-source mode is text and the (debounced) prompt is
blank — empty or whitespace-only — the effect issues no describe call and
produces no description: the pending-call list is unchanged and the stored
description is the empty string. -/
theorem blank_text_no_describe (s : AppState) (dp : String) (di : Option ImageFile)
    (σ : Sys)
    (hm : s.poseSourceMode = some Mode.text) (hb : jsTrim dp = "")
    (hm2 : σ.app.poseSourceMode = some Mode.text) (hb2 : jsTrim σ.app.prompt = "") :
    (effectStep dp di s).2 = none ∧
    (effectStep dp di s).1.poseDescription = "" ∧
    (fireEffect σ).pendingKeys = σ.pendingKeys ∧
    (fireEffect σ).app.poseDescription = "" := by
  refine ⟨?_, ?_, ?_, ?_⟩ <;>
    simp [effectStep, fireEffect, hm, hb, hm2, hb2]

/-- Witness for C7 at a concrete whitespace-only prompt. -/
theorem blank_text_no_describe_witness :
    (effectStep " " none emptyDescState).2 = none ∧
    (fireEffect { app := { emptyDescState with prompt := " " }, pendingKeys := [] }).pendingKeys
      = [] := by
  have h := blank_text_no_describe emptyDescState " " none
    { app := { emptyDescState with prompt := " " }, pendingKeys := [] }
    (by decide) (by decide) (by decide) (by decide)
  exact ⟨h.1, h.2.2.1⟩

def sysInit : Sys :=
  { app := { baseImage := some baseFix, poseImage := none, prompt := "",
             poseSourceMode := none, poseDescription := "",
             isPreviewLoading := false, showDescriptionEditor := false,
             generatedImage := none, isLoading := false, error := none },
    pendingKeys := [] }

/-- The interleaving in which the user selects the text mode, types
"pose A", the debounce fires (describe call keyed to "pose A" in flight),
the user types "pose B", the debounce fires (describe call keyed to
"pose B" in flight), the newer call resolves first with "desc B", and then
the superseded call resolves with "desc A". -/
def staleTrace : Sys :=
  resolveAt 0 "desc A"
    (resolveAt 1 "desc B"
      (fireEffect
        (userStep (setPromptAction "pose B")
          (fireEffect
            (userStep (setPromptAction "pose A")
              (userStep (handlePoseSourceChange Mode.text) sysInit))))))

/-- C1: evaluating the describe-resolution interleaving of `staleTrace` —
source changed from "pose A" to "pose B" while A's call was in flight, B's
call resolved first — shows that when A's call eventually resolves, its
result "desc A" replaces the description "desc B" associated with the
current source "pose B": the code keeps no key and discards nothing, so
the claimed staleness guard does not hold. -/
theorem stale_describe_overwrites_newer_source :
    staleTrace.app.prompt = "pose B" ∧
    staleTrace.app.poseDescription = "desc A" ∧
    staleTrace.app.poseDescription ≠ "desc B" ∧
    staleTrace.app.showDescriptionEditor = true ∧
    staleTrace.pendingKeys = [] := by
  refine ⟨by decide, by decide, by decide, by decide, by decide⟩
